import Mathlib

/-!
Shallow embedding of the StewardWell points/coins ledger and chore-completion
settlement core (models and logic layers of the repository), together with
theorems settling the frozen claims about that core.

Conventions of the embedding:
* Python `int` is `Int`; `None`-able foreign keys are `Option Nat`.
* The mutable ORM session is an explicit `DB` record of the rows relevant to
  the ledger core (families, users, chores, conversion items, transactions);
  an operation returns its result value together with the new `DB`.
* Python logic functions returning `(success, value, error)` tuples are
  embedded as `Except String value` (the `error` string of the failure branch,
  or the success value), paired with the resulting `DB`; failure branches
  leave the `DB` unchanged exactly as the source does.
* Timestamps (`created_at`, `updated_at`, `last_updated`), free-text
  descriptions and other fields never read by the embedded operations are
  omitted from the record types.
-/

/-- `Family` row: `family_model.py`. `family_points` is the shared balance
(integer column, default 0). Name, join code and creator are never read by the
settlement operations and are omitted. -/
structure Family where
  id : Nat
  family_points : Int
deriving DecidableEq

/-- `User` row: `user_model.py`. Only `id` and the nullable `family_id`
foreign key are read by the settlement operations. -/
structure User where
  id : Nat
  family_id : Option Nat
deriving DecidableEq

/-- `Chore` row: `chore_model.py`. Reward amounts (`coin_amount`,
`point_amount`), `status` (string column, default `"pending"`) and the family
foreign key; assignment, recurrence and priority fields are not read by the
operations embedded here. -/
structure Chore where
  id : Nat
  family_id : Nat
  coin_amount : Int
  point_amount : Int
  status : String
deriving DecidableEq

/-- `ConversionItem` row: `conversion_item_model.py`. A fixed conversion
package: `coin_cost` coins in, `points_value` points out. -/
structure ConversionItem where
  id : Nat
  family_id : Nat
  coin_cost : Int
  points_value : Int
  is_available : Bool
deriving DecidableEq

/-- `PointsTransaction` row: `family_points_model.py`. Signed `amount`
(positive = earned, negative = spent), `transaction_type` one of
`chore_completion`, `manual_adjustment`, `store_purchase`, `coins_conversion`,
and the optional reference to the causing chore or item. -/
structure PointsTransaction where
  family_id : Nat
  user_id : Option Nat
  child_id : Option Nat
  amount : Int
  transaction_type : String
  reference_id : Option Nat
deriving DecidableEq

/-- `FamilyPoints` row: `family_points_model.py`. The per-family ledger
balance row (`total_points`, default 0). -/
structure FamilyPoints where
  family_id : Nat
  total_points : Int
deriving DecidableEq

/-- `StoreItem` row: `store_item_model.py`. `quantity = none` means infinite;
`cost` is the price in points. -/
structure StoreItem where
  id : Nat
  family_id : Nat
  cost : Int
  quantity : Option Int
  is_active : Bool
deriving DecidableEq

/-- The database state visible to the embedded operations. -/
structure DB where
  families : List Family
  users : List User
  chores : List Chore
  conversion_items : List ConversionItem
  transactions : List PointsTransaction
deriving DecidableEq

/-- `Family.get_by_id`: primary-key lookup. -/
def Family.get_by_id (db : DB) (family_id : Nat) : Option Family :=
  db.families.find? (fun f => f.id == family_id)

/-- `User.get_by_id`: primary-key lookup. -/
def User.get_by_id (db : DB) (user_id : Nat) : Option User :=
  db.users.find? (fun u => u.id == user_id)

/-- `Chore.get_by_id`: primary-key lookup. -/
def Chore.get_by_id (db : DB) (chore_id : Nat) : Option Chore :=
  db.chores.find? (fun c => c.id == chore_id)

/-- `ConversionItem.get_by_id`: primary-key lookup. -/
def ConversionItem.get_by_id (db : DB) (item_id : Nat) : Option ConversionItem :=
  db.conversion_items.find? (fun i => i.id == item_id)

/-- Committing an in-place mutation of a `Family` row: every row with the
mutated row's primary key takes the new value. -/
def DB.update_family (db : DB) (f : Family) : DB :=
  { db with families := db.families.map (fun g => if g.id == f.id then f else g) }

/-- Committing an in-place mutation of a `Chore` row. -/
def DB.update_chore (db : DB) (c : Chore) : DB :=
  { db with chores := db.chores.map (fun d => if d.id == c.id then c else d) }

/-- `db.session.delete(chore)`: the row disappears from the table. -/
def DB.delete_chore (db : DB) (chore_id : Nat) : DB :=
  { db with chores := db.chores.filter (fun c => c.id != chore_id) }

/-- `Family.add_points` (family_model.py lines 105-113): adds only when
`points > 0`, otherwise silently leaves the balance untouched. -/
def Family.add_points (f : Family) (points : Int) : Family :=
  if points > 0 then { f with family_points := f.family_points + points } else f

/-- `Family.subtract_points` (family_model.py lines 115-128): succeeds
(returns `True` and commits) only when `points > 0` and the balance covers
them; otherwise returns `False` with no mutation. `none` embeds `False`. -/
def Family.subtract_points (f : Family) (points : Int) : Option Family :=
  if points > 0 ∧ f.family_points ≥ points then
    some { f with family_points := f.family_points - points }
  else none

/-- `Family.set_points` (family_model.py lines 130-138): overwrites the
balance when `points >= 0`, otherwise does nothing. -/
def Family.set_points (f : Family) (points : Int) : Family :=
  if points ≥ 0 then { f with family_points := points } else f

/-- `FamilyPoints.add_points` (family_points_model.py lines 50-56): adds the
amount unconditionally (no validation) and returns the new total. -/
def FamilyPoints.add_points (fp : FamilyPoints) (amount : Int) : FamilyPoints × Int :=
  let fp2 := { fp with total_points := fp.total_points + amount }
  (fp2, fp2.total_points)

/-- `FamilyPoints.subtract_points` (family_points_model.py lines 58-66):
subtracts whenever `total_points >= amount` and returns the new total,
otherwise returns `None` (insufficient points) with no mutation. -/
def FamilyPoints.subtract_points (fp : FamilyPoints) (amount : Int) :
    Option (FamilyPoints × Int) :=
  if fp.total_points ≥ amount then
    let fp2 := { fp with total_points := fp.total_points - amount }
    some (fp2, fp2.total_points)
  else none

/-- `StoreItem.is_available` (store_item_model.py lines 93-95):
`is_active and (quantity is None or quantity > 0)`. -/
def StoreItem.is_available (item : StoreItem) : Bool :=
  item.is_active && (match item.quantity with
    | none => true
    | some q => decide (q > 0))

/-- `StoreItem.purchase` (store_item_model.py lines 97-104): for a finite
quantity, fail (`False`, embedded as `none`) when `quantity <= 0`, else
decrement by one; for an infinite item succeed with no mutation. -/
def StoreItem.purchase (item : StoreItem) : Option StoreItem :=
  match item.quantity with
  | none => some item
  | some q => if q ≤ 0 then none else some { item with quantity := some (q - 1) }

/-- `PointsTransaction.create_transaction` (family_points_model.py lines
109-124): appends a new immutable transaction row. -/
def PointsTransaction.create_transaction (txs : List PointsTransaction)
    (family_id : Nat) (amount : Int) (transaction_type : String)
    (user_id child_id reference_id : Option Nat) : List PointsTransaction :=
  txs ++ [{ family_id := family_id, user_id := user_id, child_id := child_id,
            amount := amount, transaction_type := transaction_type,
            reference_id := reference_id }]

/-- Sum of the amounts of all transactions belonging to one family (the
left side of the reconciliation invariant). -/
def txSum (txs : List PointsTransaction) (family_id : Nat) : Int :=
  (txs.filter (fun t => t.family_id == family_id)).foldl (fun s t => s + t.amount) 0

/-- `Chore.complete` (chore_model.py lines 205-209): set status to
`completed` (the timestamp stamp is omitted). -/
def Chore.complete (c : Chore) : Chore :=
  { c with status := "completed" }

/-- `ChoreLogic.complete_chore` (chore_logic.py lines 224-256): look up chore
and user, require same family, refuse an already completed chore, otherwise
mark completed. The Python `user.family_id != chore.family_id` comparison is
true whenever `family_id` is `None` (None never equals an int), hence the
nested match. -/
def ChoreLogic.complete_chore (db : DB) (chore_id user_id : Nat) :
    Except String Chore × DB :=
  match Chore.get_by_id db chore_id with
  | none => (.error "Chore not found", db)
  | some chore =>
    match User.get_by_id db user_id with
    | none => (.error "User not found", db)
    | some user =>
      match user.family_id with
      | none => (.error "You can only complete chores from your own family", db)
      | some ufid =>
        if ufid ≠ chore.family_id then
          (.error "You can only complete chores from your own family", db)
        else if chore.status = "completed" then
          (.error "Chore is already completed", db)
        else
          let chore2 := chore.complete
          (.ok chore2, DB.update_chore db chore2)

/-- `ChoreLogic.approve_chore` (chore_logic.py lines 298-318): like
completion but reached from approval; only `submitted` or `pending` chores
may be approved. -/
def ChoreLogic.approve_chore (db : DB) (chore_id user_id : Nat) :
    Except String Chore × DB :=
  match Chore.get_by_id db chore_id with
  | none => (.error "Chore not found", db)
  | some chore =>
    match User.get_by_id db user_id with
    | none => (.error "User not found", db)
    | some user =>
      match user.family_id with
      | none => (.error "Unauthorized for this family", db)
      | some ufid =>
        if ufid ≠ chore.family_id then
          (.error "Unauthorized for this family", db)
        else if chore.status ≠ "submitted" ∧ chore.status ≠ "pending" then
          (.error "Chore is not awaiting approval", db)
        else
          let chore2 := chore.complete
          (.ok chore2, DB.update_chore db chore2)

/-- `ChoreLogic.delete_chore` (chore_logic.py lines 157-186): look up chore
and user, require same family, then delete the row. No status check of any
kind is made before deletion. -/
def ChoreLogic.delete_chore (db : DB) (chore_id user_id : Nat) :
    Except String Unit × DB :=
  match Chore.get_by_id db chore_id with
  | none => (.error "Chore not found", db)
  | some chore =>
    match User.get_by_id db user_id with
    | none => (.error "User not found", db)
    | some user =>
      match user.family_id with
      | none => (.error "You can only delete chores from your own family", db)
      | some ufid =>
        if ufid ≠ chore.family_id then
          (.error "You can only delete chores from your own family", db)
        else
          (.ok (), DB.delete_chore db chore_id)

/-- `StoreLogic.purchase_conversion_item` (store_logic.py lines 181-224):
look up item, user, same-family check, availability check, then
`family.add_points(item.points_value)`. The source code neither takes a
coins amount, nor divides by a ratio, nor debits any coin balance, nor
creates a `PointsTransaction`; the success message string is elided to
`Unit`. -/
def StoreLogic.purchase_conversion_item (db : DB) (item_id user_id : Nat) :
    Except String Unit × DB :=
  match ConversionItem.get_by_id db item_id with
  | none => (.error "Conversion item not found", db)
  | some item =>
    match User.get_by_id db user_id with
    | none => (.error "User not found", db)
    | some user =>
      match user.family_id with
      | none => (.error "You can only purchase items from your own family store", db)
      | some ufid =>
        if ufid ≠ item.family_id then
          (.error "You can only purchase items from your own family store", db)
        else if item.is_available = false then
          (.error "This conversion item is not available", db)
        else
          match Family.get_by_id db ufid with
          | none => (.error "Family not found", db)
          | some family =>
            (.ok (), DB.update_family db (family.add_points item.points_value))

/-- `FamilyPointsLogic.adjust_family_points` (store_logic.py lines 230-264):
membership check, then add for a positive adjustment, subtract the absolute
value for a negative one (failing when the family cannot cover it), and do
nothing at all for zero; returns the family balance after the branch. -/
def FamilyPointsLogic.adjust_family_points (db : DB) (family_id : Nat)
    (points_adjustment : Int) (user_id : Nat) : Except String Int × DB :=
  match User.get_by_id db user_id with
  | none => (.error "User not found", db)
  | some user =>
    match user.family_id with
    | none => (.error "You can only adjust points for your own family", db)
    | some ufid =>
      if ufid ≠ family_id then
        (.error "You can only adjust points for your own family", db)
      else
        match Family.get_by_id db family_id with
        | none => (.error "Family not found", db)
        | some family =>
          if points_adjustment > 0 then
            let family2 := family.add_points points_adjustment
            (.ok family2.family_points, DB.update_family db family2)
          else if points_adjustment < 0 then
            match family.subtract_points |points_adjustment| with
            | none => (.error "Insufficient family points for this adjustment", db)
            | some family2 => (.ok family2.family_points, DB.update_family db family2)
          else
            (.ok family.family_points, db)

/-- `FamilyPointsLogic.set_family_points` (store_logic.py lines 266-299):
reject a negative target, membership check, then overwrite the balance. -/
def FamilyPointsLogic.set_family_points (db : DB) (family_id : Nat)
    (new_total : Int) (user_id : Nat) : Except String Int × DB :=
  if new_total < 0 then (.error "Family points cannot be negative", db)
  else
    match User.get_by_id db user_id with
    | none => (.error "User not found", db)
    | some user =>
      match user.family_id with
      | none => (.error "You can only set points for your own family", db)
      | some ufid =>
        if ufid ≠ family_id then
          (.error "You can only set points for your own family", db)
        else
          match Family.get_by_id db family_id with
          | none => (.error "Family not found", db)
          | some family =>
            let family2 := family.set_points new_total
            (.ok family2.family_points, DB.update_family db family2)

/-- One settlement step, in the sense of the spec: the balance-touching
operations actually present in the repository's logic layer, plus the chore
state transitions that are supposed to trigger settlement. -/
inductive SettlementOp where
  | adjust (family_id : Nat) (amount : Int) (user_id : Nat)
  | setTotal (family_id : Nat) (new_total : Int) (user_id : Nat)
  | convert (item_id : Nat) (user_id : Nat)
  | completeChore (chore_id : Nat) (user_id : Nat)
  | approveChore (chore_id : Nat) (user_id : Nat)
  | deleteChore (chore_id : Nat) (user_id : Nat)
deriving DecidableEq

/-- The database after one settlement operation (discarding the result
value, keeping the state). -/
def applyOp (db : DB) : SettlementOp → DB
  | .adjust fid amt uid => (FamilyPointsLogic.adjust_family_points db fid amt uid).2
  | .setTotal fid nt uid => (FamilyPointsLogic.set_family_points db fid nt uid).2
  | .convert iid uid => (StoreLogic.purchase_conversion_item db iid uid).2
  | .completeChore cid uid => (ChoreLogic.complete_chore db cid uid).2
  | .approveChore cid uid => (ChoreLogic.approve_chore db cid uid).2
  | .deleteChore cid uid => (ChoreLogic.delete_chore db cid uid).2

/-- The database after a finite sequence of settlement operations. -/
def applyOps (db : DB) (ops : List SettlementOp) : DB :=
  ops.foldl applyOp db

/-- All family balances are non-negative. -/
def FamNonneg (db : DB) : Prop :=
  ∀ f ∈ db.families, 0 ≤ f.family_points

/-- Modelled from the spec: the repository defines the ledger primitives
(`FamilyPoints.add_points`, `FamilyPoints.subtract_points`), the catalog
consumption `StoreItem.purchase` and `PointsTransaction.create_transaction`,
but the settlement flow chaining them into a reward purchase is missing from
the logic layer (no code calls `StoreItem.purchase`). This definition follows
the words of §4.3 `settle_reward_purchase`: debit the cost from the ledger,
consume one unit via `StoreItem.purchase`, refund the debit with a
compensating `add_points` when consumption fails (surfacing `Unavailable`),
and record a `store_purchase` transaction of amount `-cost` on success. The
upfront availability precondition is the caller's; this is the settlement
step itself, whose compensation branch covers the consumption failure. -/
def settle_reward_purchase (fp : FamilyPoints) (item : StoreItem)
    (txs : List PointsTransaction) (user_id : Option Nat) :
    Option String × FamilyPoints × StoreItem × List PointsTransaction :=
  match fp.subtract_points item.cost with
  | none => (some "InsufficientFunds", fp, item, txs)
  | some (fp1, _) =>
    match item.purchase with
    | none =>
      let (fp2, _) := fp1.add_points item.cost
      (some "Unavailable", fp2, item, txs)
    | some item2 =>
      (none, fp1, item2,
        PointsTransaction.create_transaction txs fp.family_id (-item.cost)
          "store_purchase" user_id none (some item.id))

/-! ## Sample database states used by the concrete theorems and witnesses -/

/-- A one-family state with an available conversion item (25 coins in, 5
points out) and an empty transaction log. -/
def c1db : DB :=
  { families := [{ id := 1, family_points := 0 }],
    users := [{ id := 1, family_id := some 1 }],
    chores := [],
    conversion_items :=
      [{ id := 1, family_id := 1, coin_cost := 25, points_value := 5, is_available := true }],
    transactions := [] }

/-- A one-family state whose single chore is already completed. -/
def c2db : DB :=
  { families := [{ id := 1, family_points := 20 }],
    users := [{ id := 1, family_id := some 1 }],
    chores := [{ id := 1, family_id := 1, coin_amount := 0, point_amount := 50,
                 status := "completed" }],
    conversion_items := [],
    transactions := [] }

/-- A one-family state with a pending chore worth 50 family points. -/
def c3db : DB :=
  { families := [{ id := 1, family_points := 0 }],
    users := [{ id := 1, family_id := some 1 }],
    chores := [{ id := 1, family_id := 1, coin_amount := 0, point_amount := 50,
                 status := "pending" }],
    conversion_items := [],
    transactions := [] }

/-- A one-family state with an available conversion item converting 25 coins
into 7 points — a pair admitted by the creation validation (both at least 1)
that is not `25 / r` for any integer ratio `r`. -/
def c6db : DB :=
  { families := [{ id := 1, family_points := 0 }],
    users := [{ id := 1, family_id := some 1 }],
    chores := [],
    conversion_items :=
      [{ id := 1, family_id := 1, coin_cost := 25, points_value := 7, is_available := true }],
    transactions := [] }

/-- A one-family state whose single chore is completed, for the deletion
claim. -/
def c9db : DB :=
  { families := [{ id := 1, family_points := 0 }],
    users := [{ id := 1, family_id := some 1 }],
    chores := [{ id := 1, family_id := 1, coin_amount := 0, point_amount := 50,
                 status := "completed" }],
    conversion_items := [],
    transactions := [] }

/-! ## Claims -/

/-- C2: for every chore whose status is `completed`, invoking the completion
operation on it again fails (both the direct completion and the approval
variant return an error) and leaves the whole database — chore, family
balance and transaction log — unchanged. -/
theorem c2_recompleting_completed_chore_fails (db : DB) (chore_id user_id : Nat)
    (c : Chore) (hc : Chore.get_by_id db chore_id = some c)
    (hs : c.status = "completed") :
    (∃ e, ChoreLogic.complete_chore db chore_id user_id = (.error e, db)) ∧
    (∃ e, ChoreLogic.approve_chore db chore_id user_id = (.error e, db)) := by
  constructor
  · unfold ChoreLogic.complete_chore
    simp only [hc]
    cases hu : User.get_by_id db user_id with
    | none => exact ⟨"User not found", by simp only [hu]⟩
    | some u =>
      cases hf : u.family_id with
      | none =>
        exact ⟨"You can only complete chores from your own family", by simp only [hu, hf]⟩
      | some ufid =>
        by_cases hne : ufid = c.family_id
        · exact ⟨"Chore is already completed", by simp [hu, hf, hne, hs]⟩
        · exact ⟨"You can only complete chores from your own family", by simp [hu, hf, hne]⟩
  · unfold ChoreLogic.approve_chore
    simp only [hc]
    cases hu : User.get_by_id db user_id with
    | none => exact ⟨"User not found", by simp only [hu]⟩
    | some u =>
      cases hf : u.family_id with
      | none => exact ⟨"Unauthorized for this family", by simp only [hu, hf]⟩
      | some ufid =>
        by_cases hne : ufid = c.family_id
        · exact ⟨"Chore is not awaiting approval", by simp [hu, hf, hne, hs]⟩
        · exact ⟨"Unauthorized for this family", by simp [hu, hf, hne]⟩

/-- Witness for C2 at a concrete state: the chore with id 1 in `c2db` is
completed, and both completion paths fail leaving the state unchanged. -/
theorem c2_witness :
    Chore.get_by_id c2db 1 =
      some ({ id := 1, family_id := 1, coin_amount := 0, point_amount := 50,
              status := "completed" } : Chore) ∧
    ((∃ e, ChoreLogic.complete_chore c2db 1 1 = (.error e, c2db)) ∧
     (∃ e, ChoreLogic.approve_chore c2db 1 1 = (.error e, c2db))) :=
  ⟨rfl,
    c2_recompleting_completed_chore_fails c2db 1 1
      ({ id := 1, family_id := 1, coin_amount := 0, point_amount := 50,
         status := "completed" } : Chore) rfl rfl⟩

/-- C1 (code bug): the reconciliation invariant does not survive a single
conversion settlement — purchasing the conversion item in `c1db` succeeds
and raises the family balance from 0 to 5, but no `PointsTransaction` is
created anywhere in the flow, so the transaction sum for the family stays 0
and no longer equals the balance. -/
theorem c1_reconciliation_invariant_broken :
    (StoreLogic.purchase_conversion_item c1db 1 1).1 = .ok () ∧
    Family.get_by_id (StoreLogic.purchase_conversion_item c1db 1 1).2 1 =
      some { id := 1, family_points := 5 } ∧
    txSum (StoreLogic.purchase_conversion_item c1db 1 1).2.transactions 1 = 0 :=
  ⟨rfl, rfl, rfl⟩

/-- C3 (code bug): completing the pending chore of `c3db`, which carries a
nonzero `point_amount` of 50, succeeds and marks the chore completed, yet
the family balance stays at 0 and no `chore_completion` transaction is
appended — the reward is never credited. -/
theorem c3_completion_never_credits_reward :
    (ChoreLogic.complete_chore c3db 1 1).1 =
      .ok { id := 1, family_id := 1, coin_amount := 0, point_amount := 50,
            status := "completed" } ∧
    Family.get_by_id (ChoreLogic.complete_chore c3db 1 1).2 1 =
      some { id := 1, family_points := 0 } ∧
    (ChoreLogic.complete_chore c3db 1 1).2.transactions = [] :=
  ⟨rfl, rfl, rfl⟩

/-- C10: a manual adjustment of exactly 0 by a family member succeeds,
returns the current balance and leaves the database unchanged — the
adjustment logic itself does not reject a zero amount. -/
theorem c10_zero_adjustment_succeeds (db : DB) (family_id user_id : Nat)
    (u : User) (fam : Family)
    (hu : User.get_by_id db user_id = some u)
    (hf : u.family_id = some family_id)
    (hfam : Family.get_by_id db family_id = some fam) :
    FamilyPointsLogic.adjust_family_points db family_id 0 user_id =
      (.ok fam.family_points, db) := by
  unfold FamilyPointsLogic.adjust_family_points
  simp only [hu, hf, hfam]
  norm_num

/-- Witness for C10 at a concrete state: user 1 of `c2db` belongs to family
1, and a zero adjustment returns the balance 20 with the state unchanged. -/
theorem c10_witness :
    User.get_by_id c2db 1 = some ({ id := 1, family_id := some 1 } : User) ∧
    Family.get_by_id c2db 1 = some ({ id := 1, family_points := 20 } : Family) ∧
    FamilyPointsLogic.adjust_family_points c2db 1 0 1 = (.ok 20, c2db) :=
  ⟨rfl, rfl,
    c10_zero_adjustment_succeeds c2db 1 1 { id := 1, family_id := some 1 }
      { id := 1, family_points := 20 } rfl rfl rfl⟩

/-- C7: catalog consumption respects the quantity floor. For an infinite
item (`quantity = none`) purchase always succeeds and mutates nothing; for a
finite quantity it fails exactly when the quantity is exhausted, otherwise
decrements by one, never drives the quantity below zero, and after selling
the last unit the item is unavailable and a further purchase fails. -/
theorem c7_quantity_floor (item : StoreItem) :
    (item.quantity = none → StoreItem.purchase item = some item) ∧
    ∀ q : Int, item.quantity = some q →
      (q ≤ 0 → StoreItem.purchase item = none) ∧
      (0 < q → StoreItem.purchase item = some { item with quantity := some (q - 1) } ∧
         0 ≤ q - 1) ∧
      (∀ item2, StoreItem.purchase item = some item2 → 0 ≤ q →
         ∃ q2, item2.quantity = some q2 ∧ 0 ≤ q2) ∧
      (q = 1 → StoreItem.purchase item = some { item with quantity := some 0 } ∧
         StoreItem.is_available { item with quantity := some 0 } = false ∧
         StoreItem.purchase { item with quantity := some 0 } = none) := by
  constructor
  · intro hq
    unfold StoreItem.purchase
    simp only [hq]
  · intro q hq
    refine ⟨?_, ?_, ?_, ?_⟩
    · intro hle
      unfold StoreItem.purchase
      simp only [hq, if_pos hle]
    · intro hpos
      refine ⟨?_, by omega⟩
      unfold StoreItem.purchase
      simp only [hq, if_neg (by omega : ¬ q ≤ 0)]
    · intro item2 hp hq0
      unfold StoreItem.purchase at hp
      simp only [hq] at hp
      by_cases hle : q ≤ 0
      · rw [if_pos hle] at hp
        exact absurd hp (by simp)
      · rw [if_neg hle] at hp
        refine ⟨q - 1, ?_, by omega⟩
        cases hp
        rfl
    · intro h1
      subst h1
      refine ⟨?_, ?_, ?_⟩
      · unfold StoreItem.purchase
        simp only [hq]
        norm_num
      · unfold StoreItem.is_available
        simp
      · unfold StoreItem.purchase
        simp

/-- Witness for C7: a finite item with one unit left sells that unit, is
then unavailable, and a further purchase fails. -/
theorem c7_witness :
    StoreItem.purchase
        { id := 1, family_id := 1, cost := 30, quantity := some 1, is_active := true } =
      some { id := 1, family_id := 1, cost := 30, quantity := some 0, is_active := true } ∧
    StoreItem.is_available
        { id := 1, family_id := 1, cost := 30, quantity := some 0, is_active := true } = false ∧
    StoreItem.purchase
        { id := 1, family_id := 1, cost := 30, quantity := some 0, is_active := true } = none := by
  have h := ((c7_quantity_floor
    { id := 1, family_id := 1, cost := 30, quantity := some 1, is_active := true }).2
    1 rfl).2.2.2 rfl
  exact ⟨h.1, h.2.1, h.2.2⟩

/-- C8 counterexample: the `FamilyPoints` ledger row does not validate
amounts — crediting the amount `-5` (which is `≤ 0`) succeeds and lowers the
balance from 10 to 5, and debiting `-5` succeeds and raises it to 15,
instead of both failing with `InvalidAmount` and leaving the balance
unchanged as the claim states. -/
theorem c8_counterexample :
    FamilyPoints.add_points { family_id := 1, total_points := 10 } (-5) =
      ({ family_id := 1, total_points := 5 }, 5) ∧
    FamilyPoints.subtract_points { family_id := 1, total_points := 10 } (-5) =
      some ({ family_id := 1, total_points := 15 }, 15) :=
  ⟨rfl, rfl⟩

/-- C8 amended: only the `Family` model guards the amount — `add_points`
with a non-positive amount silently leaves the balance unchanged (there is
no error value at all) and `subtract_points` with a non-positive amount
fails leaving the balance unchanged; the `FamilyPoints` ledger row performs
no amount validation: `add_points` applies any amount unconditionally, and
`subtract_points` applies any amount covered by the balance, so non-positive
amounts mutate the balance instead of failing. -/
theorem c8_amended_no_ledger_validation (f : Family) (fp : FamilyPoints)
    (amount : Int) (h : amount ≤ 0) :
    Family.add_points f amount = f ∧
    Family.subtract_points f amount = none ∧
    (FamilyPoints.add_points fp amount).1.total_points = fp.total_points + amount ∧
    (fp.total_points ≥ amount →
      FamilyPoints.subtract_points fp amount =
        some ({ fp with total_points := fp.total_points - amount },
              fp.total_points - amount)) := by
  refine ⟨?_, ?_, rfl, ?_⟩
  · unfold Family.add_points
    rw [if_neg (by omega : ¬ amount > 0)]
  · unfold Family.subtract_points
    rw [if_neg (by omega : ¬ (amount > 0 ∧ f.family_points ≥ amount))]
  · intro hc
    unfold FamilyPoints.subtract_points
    rw [if_pos hc]

/-- Witness for C8 amended at concrete values: amount `-5` is non-positive;
the `Family` operations refuse it while the `FamilyPoints` operations apply
it. -/
theorem c8_witness :
    (-5 : Int) ≤ 0 ∧
    (Family.add_points { id := 1, family_points := 10 } (-5) =
        { id := 1, family_points := 10 } ∧
      Family.subtract_points { id := 1, family_points := 10 } (-5) = none ∧
      (FamilyPoints.add_points { family_id := 1, total_points := 10 } (-5)).1.total_points =
        10 + (-5) ∧
      ((10 : Int) ≥ -5 →
        FamilyPoints.subtract_points { family_id := 1, total_points := 10 } (-5) =
          some ({ family_id := 1, total_points := 10 - (-5) }, 10 - (-5)))) :=
  ⟨by decide,
    c8_amended_no_ledger_validation { id := 1, family_points := 10 }
      { family_id := 1, total_points := 10 } (-5) (by decide)⟩

/-- C9 counterexample: deleting the already-completed chore of `c9db` by a
member of its family succeeds and removes the record, contradicting the
claim that a completed chore can never be deleted. -/
theorem c9_counterexample :
    (ChoreLogic.delete_chore c9db 1 1).1 = .ok () ∧
    Chore.get_by_id (ChoreLogic.delete_chore c9db 1 1).2 1 = none :=
  ⟨rfl, rfl⟩

/-- C9 amended: `delete_chore` checks only that the chore exists and the
requesting user belongs to the chore's family; it never inspects the status,
so any chore of the user's family — a completed one included — is deleted
and its record removed. -/
theorem c9_amended_delete_ignores_status (db : DB) (chore_id user_id : Nat)
    (c : Chore) (u : User)
    (hc : Chore.get_by_id db chore_id = some c)
    (hu : User.get_by_id db user_id = some u)
    (hf : u.family_id = some c.family_id) :
    ChoreLogic.delete_chore db chore_id user_id = (.ok (), DB.delete_chore db chore_id) ∧
    Chore.get_by_id (DB.delete_chore db chore_id) chore_id = none := by
  constructor
  · unfold ChoreLogic.delete_chore
    simp [hc, hu, hf]
  · unfold Chore.get_by_id DB.delete_chore
    simp only [List.find?_eq_none, List.mem_filter]
    intro a ha
    simpa using ha.2

/-- Witness for C9 amended at the concrete state `c9db`: its chore 1 is
completed and user 1 is in its family, yet deletion succeeds and removes
it. -/
theorem c9_witness :
    Chore.get_by_id c9db 1 =
      some ({ id := 1, family_id := 1, coin_amount := 0, point_amount := 50,
              status := "completed" } : Chore) ∧
    User.get_by_id c9db 1 = some ({ id := 1, family_id := some 1 } : User) ∧
    (ChoreLogic.delete_chore c9db 1 1 = (.ok (), DB.delete_chore c9db 1) ∧
      Chore.get_by_id (DB.delete_chore c9db 1) 1 = none) :=
  ⟨rfl, rfl,
    c9_amended_delete_ignores_status c9db 1 1
      { id := 1, family_id := 1, coin_amount := 0, point_amount := 50,
        status := "completed" }
      { id := 1, family_id := some 1 } rfl rfl rfl⟩

/-- C5: in the settlement flow, when the ledger debit of the item's cost
succeeds but the catalog consumption fails (`Unavailable`, the quantity
being exhausted), the debit is compensated exactly once: the resulting
ledger row, item and transaction log are all exactly the initial ones (net
balance change zero, quantity untouched, no transaction recorded), and the
failure is surfaced as `Unavailable`. -/
theorem c5_failed_consumption_is_refunded (fp : FamilyPoints) (item : StoreItem)
    (txs : List PointsTransaction) (uid : Option Nat) (q : Int)
    (hdebit : fp.total_points ≥ item.cost)
    (hq : item.quantity = some q) (hq0 : q ≤ 0) :
    settle_reward_purchase fp item txs uid = (some "Unavailable", fp, item, txs) := by
  unfold settle_reward_purchase FamilyPoints.subtract_points
  simp only [if_pos hdebit]
  unfold StoreItem.purchase
  simp only [hq, if_pos hq0]
  unfold FamilyPoints.add_points
  have h : fp.total_points - item.cost + item.cost = fp.total_points := by ring
  simp [h]

/-- Witness for C5: a ledger holding 30 points, an item costing 30 whose
quantity is already 0 — the debit succeeds, consumption fails, and the state
comes back unchanged with the `Unavailable` error. -/
theorem c5_witness :
    ((30 : Int) ≥ 30 ∧ (0 : Int) ≤ 0) ∧
    settle_reward_purchase { family_id := 1, total_points := 30 }
        { id := 1, family_id := 1, cost := 30, quantity := some 0, is_active := true }
        [] none =
      (some "Unavailable", { family_id := 1, total_points := 30 },
        { id := 1, family_id := 1, cost := 30, quantity := some 0, is_active := true },
        []) :=
  ⟨⟨by decide, by decide⟩,
    c5_failed_consumption_is_refunded { family_id := 1, total_points := 30 }
      { id := 1, family_id := 1, cost := 30, quantity := some 0, is_active := true }
      [] none 0 (by decide) rfl (by decide)⟩

/-- C6 counterexample: purchasing the conversion item of `c6db` (25 coins
in) succeeds and credits the item's fixed `points_value` of 7 — but 7 is not
`⌊25 / r⌋` for any ratio `r`, so the credited points are not a floor
division of the coins amount by a conversion ratio; in particular the
operation succeeds rather than failing below any minimum. -/
theorem c6_counterexample :
    (StoreLogic.purchase_conversion_item c6db 1 1).1 = .ok () ∧
    Family.get_by_id (StoreLogic.purchase_conversion_item c6db 1 1).2 1 =
      some { id := 1, family_points := 7 } ∧
    ∀ r : Nat, (25 : Nat) / r ≠ 7 := by
  refine ⟨rfl, rfl, ?_⟩
  intro r h
  rcases r with _ | _ | _ | _ | r
  · simp at h
  · norm_num at h
  · norm_num at h
  · norm_num at h
  · have h2 : 7 * (r + 4) ≤ 25 :=
      (Nat.le_div_iff_mul_le (by omega)).mp (le_of_eq h.symm)
    omega

/-- C6 amended: the conversion purchase takes no coins amount and performs
no division — for every available conversion item purchased by a member of
its family, the operation succeeds and credits the family balance with
exactly the item's fixed (positive) `points_value`; there is no
`BelowMinimum` failure. -/
theorem c6_amended_fixed_points_value (db : DB) (item_id user_id : Nat)
    (item : ConversionItem) (u : User) (fam : Family)
    (hi : ConversionItem.get_by_id db item_id = some item)
    (hu : User.get_by_id db user_id = some u)
    (hf : u.family_id = some item.family_id)
    (ha : item.is_available = true)
    (hfam : Family.get_by_id db item.family_id = some fam)
    (hpv : 0 < item.points_value) :
    StoreLogic.purchase_conversion_item db item_id user_id =
      (.ok (), DB.update_family db
        { fam with family_points := fam.family_points + item.points_value }) := by
  unfold StoreLogic.purchase_conversion_item
  simp only [hi, hu, hf, hfam, ha]
  simp [Family.add_points, hpv]

/-- Witness for C6 amended at `c6db`: its item is available, its
`points_value` 7 is positive, and the purchase credits exactly 7. -/
theorem c6_witness :
    ConversionItem.get_by_id c6db 1 =
      some ({ id := 1, family_id := 1, coin_cost := 25, points_value := 7,
              is_available := true } : ConversionItem) ∧
    StoreLogic.purchase_conversion_item c6db 1 1 =
      (.ok (), DB.update_family c6db { id := 1, family_points := 0 + 7 }) :=
  ⟨rfl,
    c6_amended_fixed_points_value c6db 1 1
      { id := 1, family_id := 1, coin_cost := 25, points_value := 7,
        is_available := true }
      { id := 1, family_id := some 1 } { id := 1, family_points := 0 }
      rfl rfl rfl rfl rfl (by decide)⟩

/-- Crediting via `Family.add_points` preserves a non-negative balance. -/
theorem Family.add_points_nonneg (f : Family) (p : Int)
    (h : 0 ≤ f.family_points) : 0 ≤ (f.add_points p).family_points := by
  unfold Family.add_points
  split
  · rename_i hp; show 0 ≤ f.family_points + p; omega
  · exact h

/-- A successful `Family.subtract_points` leaves a non-negative balance. -/
theorem Family.subtract_points_nonneg (f : Family) (p : Int) (f2 : Family)
    (h : f.subtract_points p = some f2) : 0 ≤ f2.family_points := by
  unfold Family.subtract_points at h
  split at h
  · rename_i hc
    cases h
    show 0 ≤ f.family_points - p
    omega
  · cases h

/-- `Family.set_points` preserves a non-negative balance. -/
theorem Family.set_points_nonneg (f : Family) (p : Int)
    (h : 0 ≤ f.family_points) : 0 ≤ (f.set_points p).family_points := by
  unfold Family.set_points
  split
  · rename_i hp; simpa using hp
  · exact h

/-- Replacing a family row with a non-negative one keeps every balance
non-negative. -/
theorem FamNonneg.update_family {db : DB} {f : Family} (hdb : FamNonneg db)
    (hf : 0 ≤ f.family_points) : FamNonneg (db.update_family f) := by
  intro g hg
  unfold DB.update_family at hg
  simp only [List.mem_map] at hg
  obtain ⟨g0, hg0, hif⟩ := hg
  split at hif
  · exact hif ▸ hf
  · exact hif ▸ hdb g0 hg0

/-- Completing a chore never touches the family table. -/
theorem complete_chore_families (db : DB) (cid uid : Nat) :
    ((ChoreLogic.complete_chore db cid uid).2).families = db.families := by
  unfold ChoreLogic.complete_chore
  repeat' split
  all_goals rfl

/-- Approving a chore never touches the family table. -/
theorem approve_chore_families (db : DB) (cid uid : Nat) :
    ((ChoreLogic.approve_chore db cid uid).2).families = db.families := by
  unfold ChoreLogic.approve_chore
  repeat' split
  all_goals rfl

/-- Deleting a chore never touches the family table. -/
theorem delete_chore_families (db : DB) (cid uid : Nat) :
    ((ChoreLogic.delete_chore db cid uid).2).families = db.families := by
  unfold ChoreLogic.delete_chore
  repeat' split
  all_goals rfl

/-- A conversion purchase keeps every family balance non-negative. -/
theorem purchase_conversion_item_nonneg (db : DB) (iid uid : Nat)
    (hdb : FamNonneg db) :
    FamNonneg ((StoreLogic.purchase_conversion_item db iid uid).2) := by
  unfold StoreLogic.purchase_conversion_item
  repeat' split
  any_goals exact hdb
  rename_i fam hfam
  have hmem : fam ∈ db.families := List.mem_of_find?_eq_some hfam
  exact hdb.update_family (Family.add_points_nonneg fam _ (hdb fam hmem))

/-- A manual adjustment keeps every family balance non-negative. -/
theorem adjust_family_points_nonneg (db : DB) (fid uid : Nat) (amt : Int)
    (hdb : FamNonneg db) :
    FamNonneg ((FamilyPointsLogic.adjust_family_points db fid amt uid).2) := by
  unfold FamilyPointsLogic.adjust_family_points
  repeat' split
  any_goals exact hdb
  · rename_i hfam h1
    exact hdb.update_family
      (Family.add_points_nonneg _ _ (hdb _ (List.mem_of_find?_eq_some hfam)))
  · rename_i f2 hsub
    exact hdb.update_family (Family.subtract_points_nonneg _ _ _ hsub)

/-- A points overwrite keeps every family balance non-negative (the logic
layer rejects negative targets and `set_points` ignores them). -/
theorem set_family_points_nonneg (db : DB) (fid uid : Nat) (nt : Int)
    (hdb : FamNonneg db) :
    FamNonneg ((FamilyPointsLogic.set_family_points db fid nt uid).2) := by
  unfold FamilyPointsLogic.set_family_points
  repeat' split
  any_goals exact hdb
  rename_i fam hfam
  have hmem : fam ∈ db.families := List.mem_of_find?_eq_some hfam
  exact hdb.update_family (Family.set_points_nonneg fam _ (hdb fam hmem))

/-- Every single settlement operation keeps every family balance
non-negative. -/
theorem applyOp_nonneg (db : DB) (op : SettlementOp) (hdb : FamNonneg db) :
    FamNonneg (applyOp db op) := by
  cases op with
  | adjust fid amt uid => exact adjust_family_points_nonneg db fid uid amt hdb
  | setTotal fid nt uid => exact set_family_points_nonneg db fid uid nt hdb
  | convert iid uid => exact purchase_conversion_item_nonneg db iid uid hdb
  | completeChore cid uid =>
    intro f hf
    simp only [applyOp, complete_chore_families] at hf
    exact hdb f hf
  | approveChore cid uid =>
    intro f hf
    simp only [applyOp, approve_chore_families] at hf
    exact hdb f hf
  | deleteChore cid uid =>
    intro f hf
    simp only [applyOp, delete_chore_families] at hf
    exact hdb f hf

/-- Any finite sequence of settlement operations keeps every family balance
non-negative. -/
theorem applyOps_nonneg (db : DB) (ops : List SettlementOp) (hdb : FamNonneg db) :
    FamNonneg (applyOps db ops) := by
  induction ops generalizing db with
  | nil => exact hdb
  | cons op rest ih =>
    simp only [applyOps, List.foldl_cons]
    exact ih _ (applyOp_nonneg db op hdb)

/-- C4: starting from non-negative balances, no sequence of settlement
operations ever drives a family balance below 0; moreover a debit whose
amount exceeds the balance fails (at the `Family` model, the `FamilyPoints`
ledger row, and the manual-adjustment logic, which surfaces the
insufficient-points error) and leaves the state unchanged. -/
theorem c4_balance_never_negative (db : DB) (ops : List SettlementOp)
    (hdb : FamNonneg db) :
    FamNonneg (applyOps db ops) ∧
    (∀ (f : Family) (amt : Int), f.family_points < amt →
        f.subtract_points amt = none) ∧
    (∀ (fp : FamilyPoints) (amt : Int), fp.total_points < amt →
        fp.subtract_points amt = none) ∧
    (∀ (family_id user_id : Nat) (amt : Int) (u : User) (fam : Family),
        User.get_by_id db user_id = some u → u.family_id = some family_id →
        Family.get_by_id db family_id = some fam →
        fam.family_points < amt → 0 < amt →
        FamilyPointsLogic.adjust_family_points db family_id (-amt) user_id =
          (.error "Insufficient family points for this adjustment", db)) := by
  refine ⟨applyOps_nonneg db ops hdb, ?_, ?_, ?_⟩
  · intro f amt hlt
    unfold Family.subtract_points
    rw [if_neg (by omega : ¬ (amt > 0 ∧ f.family_points ≥ amt))]
  · intro fp amt hlt
    unfold FamilyPoints.subtract_points
    rw [if_neg (by omega : ¬ fp.total_points ≥ amt)]
  · intro fid uid amt u fam hu hf hfam hlt hpos
    have hsub : fam.subtract_points |(-amt)| = none := by
      rw [abs_neg, abs_of_pos hpos]
      unfold Family.subtract_points
      rw [if_neg (by omega : ¬ (amt > 0 ∧ fam.family_points ≥ amt))]
    unfold FamilyPointsLogic.adjust_family_points
    simp only [hu, hf, hfam, hsub]
    rw [if_neg (by simp : ¬ (fid ≠ fid)), if_neg (by omega : ¬ ((-amt) > 0)),
        if_pos (by omega : (-amt) < 0)]

/-- Witness for C4 at the concrete state `c2db` (balance 20): an adjustment
of -100 fails with the insufficient-points error, the state is unchanged,
and balances stay non-negative. -/
theorem c4_witness :
    FamNonneg c2db ∧
    (FamNonneg (applyOps c2db [SettlementOp.adjust 1 (-100) 1]) ∧
     FamilyPointsLogic.adjust_family_points c2db 1 (-100) 1 =
       (.error "Insufficient family points for this adjustment", c2db)) := by
  have hdb : FamNonneg c2db := by
    unfold FamNonneg c2db
    decide
  refine ⟨hdb, ?_, ?_⟩
  · exact (c4_balance_never_negative c2db [SettlementOp.adjust 1 (-100) 1] hdb).1
  · exact (c4_balance_never_negative c2db [] hdb).2.2.2 1 1 100
      { id := 1, family_id := some 1 } { id := 1, family_points := 20 }
      rfl rfl rfl (by decide) (by decide)
